import Mathlib

/-!
Verification development for a minimal remote-monitoring client/server
(`server.py`, `client.py`).  The Python code is shallowly embedded: pure
string manipulation is translated to Lean functions on `String`/`List Char`,
the per-connection server loop becomes an explicit step function on a server
state, and operations that may raise are modelled with `Except`.  External
collaborators (the `psutil` introspection provider, the OS directory listing,
the JSON library) are modelled as explicit inputs carried by a `Provider`
record.
-/

namespace RemoteMon

/-! ### Python string primitives -/

/-- Whitespace characters stripped by Python `str.strip()` (ASCII range). -/
def pySpace (c : Char) : Bool :=
  c = ' ' || c = '\t' || c = '\n' || c = '\r' || c = '\x0b' || c = '\x0c'

/-- Model of Python `str.strip()` on a character list. -/
def pyStripL (l : List Char) : List Char :=
  ((l.dropWhile pySpace).reverse.dropWhile pySpace).reverse

/-- Model of Python `str.lower()` (ASCII case folding). -/
def pyLowerL (l : List Char) : List Char :=
  l.map Char.toLower

/-- Model of Python `s.split(' ', 1)`: the part before the first space, and
the remainder after it when a space occurs. -/
def pySplit1L : List Char → List Char × Option (List Char)
  | [] => ([], none)
  | c :: cs =>
    if c = ' ' then ([], some cs)
    else
      let r := pySplit1L cs
      (c :: r.1, r.2)

def pyStrip (s : String) : String := String.mk (pyStripL s.toList)

def pyLower (s : String) : String := String.mk (pyLowerL s.toList)

/-- Whether the first character list is an initial run of the second. -/
def chStarts : List Char → List Char → Bool
  | [], _ => true
  | _ :: _, [] => false
  | a :: as, b :: bs => a == b && chStarts as bs

/-- Model of Python `s.startswith(t)`. -/
def pyStartsWith (s t : String) : Bool :=
  chStarts t.toList s.toList

/-- The normalized keyword of a received line, as computed by
`process_command`: strip, lowercase, then take what stands before the first
space. -/
def normKeyword (line : String) : String :=
  String.mk (pySplit1L (pyLowerL (pyStripL line.toList))).1

/-- The argument passed to the handler by `process_command`: the remainder of
the stripped, lowercased line after the first space (empty when there is no
space). -/
def normArg (line : String) : String :=
  String.mk ((pySplit1L (pyLowerL (pyStripL line.toList))).2.getD [])

/-! ### Python path primitives (`os.path`)

Paths are strings; canonicalization works on `/`-separated segments.  The
current working directory is modelled as a list of segments (the server
never changes it). -/

/-- Split a character list on `/`, keeping empty segments. -/
def splitSlash : List Char → List (List Char)
  | [] => [[]]
  | c :: cs =>
    let r := splitSlash cs
    if c = '/' then [] :: r
    else
      match r with
      | [] => [[c]]
      | a :: rest => (c :: a) :: rest

/-- Is the path absolute (model of `os.path.isabs`)? -/
def pyIsAbs (s : String) : Bool :=
  match s.toList with
  | '/' :: _ => true
  | _ => false

/-- Segment normalization of an absolute path, as done by `os.path.normpath`:
drop empty and `.` segments, let `..` pop the previous segment (or stay at
the root). -/
def normAbsSegs (segs : List (List Char)) : List (List Char) :=
  segs.foldl
    (fun stack seg =>
      if seg = [] || seg = ['.'] then stack
      else if seg = ['.', '.'] then stack.dropLast
      else stack ++ [seg])
    []

/-- Render normalized absolute segments back to a path string. -/
def joinAbsSegs (segs : List (List Char)) : String :=
  match segs with
  | [] => "/"
  | _ => String.mk (segs.foldl (fun acc s => acc ++ '/' :: s) [])

/-- Model of `os.path.abspath(q)` with the given working directory `cwd`
(as absolute-path segments). -/
def pyAbspath (cwd : List String) (q : String) : String :=
  if pyIsAbs q then joinAbsSegs (normAbsSegs (splitSlash q.toList))
  else joinAbsSegs (normAbsSegs (cwd.map String.toList ++ splitSlash q.toList))

/-- Model of `os.path.join('.', p)`: `p` itself when absolute, otherwise
`./p` (`./` for the empty string). -/
def pyJoinDot (p : String) : String :=
  if pyIsAbs p then p else "./" ++ p

/-! ### JSON values

Tree of maps/sequences/scalars, the payload of a structured response.  The
Python code produces these with dict/list literals and serializes them with
`json.dumps`; the JSON library round-trip (`json.loads` after `json.dumps`)
is the identity on this tree and is treated as an external collaborator. -/

inductive Json where
  | null : Json
  | bool (b : Bool) : Json
  | num (q : ℚ) : Json
  | str (s : String) : Json
  | arr (xs : List Json) : Json
  | obj (kvs : List (String × Json)) : Json

/-- Keys of a JSON object (in insertion order); `[]` for non-objects. -/
def Json.keys : Json → List String
  | .obj kvs => kvs.map Prod.fst
  | _ => []

/-- Entries of a JSON object (in insertion order); `[]` for non-objects. -/
def Json.objEntries : Json → List (String × Json)
  | .obj kvs => kvs
  | _ => []

/-- Fixed-point decimal rendering of a rational, the model of Python
`f-string` formatting `:.{d}f` (round half up): the integer
`(2 q.num 10^d + q.den).fdiv (2 q.den)` is the floor of
`q 10^d + 1/2`. -/
def fmtFixed (d : Nat) (q : ℚ) : String :=
  let n : ℤ := (2 * q.num * ((10 ^ d : ℕ) : ℤ) + (q.den : ℤ)).fdiv
    (2 * (q.den : ℤ))
  let sign := if n < 0 then "-" else ""
  let m := n.natAbs
  let unit := 10 ^ d
  if d = 0 then sign ++ toString m
  else
    let frac := toString (m % unit)
    let pad := String.mk (List.replicate (d - frac.length) '0')
    sign ++ toString (m / unit) ++ "." ++ pad ++ frac

/-! ### Introspection provider (external collaborator)

Raw results of the `psutil` / `platform` / `os.listdir` calls a single
command may make.  Calls that can raise are `Except` values. -/

/-- Raw result of the `psutil` CPU queries made by `get_cpu_info`. -/
structure CpuRaw where
  percpu : List ℚ
  freq : Option (List (String × ℚ))
  countPhysical : Option ℤ
  countLogical : Option ℤ

/-- Raw result of `psutil.virtual_memory()` and `psutil.swap_memory()`. -/
structure MemRaw where
  total : ℚ
  available : ℚ
  percent : ℚ
  swapTotal : ℚ
  swapUsed : ℚ

/-- Raw result of `psutil.net_io_counters()`. -/
structure NetRaw where
  bytesSent : ℚ
  bytesRecv : ℚ
  packetsSent : ℤ
  packetsRecv : ℤ

/-- One `proc.info` record from `psutil.process_iter(['pid', 'name',
'memory_percent'])`; `memPct` is `none` when the attribute was unavailable
(Python `None`). -/
structure ProcInfo where
  pid : ℤ
  name : String
  memPct : Option ℚ

/-- Raw result of `psutil.disk_usage` for one mount point. -/
structure DiskRaw where
  total : ℚ
  used : ℚ
  free : ℚ
  percent : ℚ

/-- All external inputs one command dispatch may consult.  `procsRaw` lists
the scan slots of `psutil.process_iter`; a `none` slot is a process that
vanished or became inaccessible mid-scan, which the iterator silently skips.
`partitions` pairs each mount point with its `disk_usage` outcome.
`listdirFs` is the outcome of `os.listdir` on a canonical path. -/
structure Provider where
  cwd : List String
  cpu : Except String CpuRaw
  mem : Except String MemRaw
  netio : Except String NetRaw
  procsRaw : List (Option ProcInfo)
  partitions : List (String × Except String DiskRaw)
  listdirFs : String → Except String (List String)
  osSystem : String
  osVersion : String
  machine : String
  processor : String
  timeText : String

/-- Model of the `psutil.process_iter` scan: vanished or inaccessible
processes are skipped by the iterator (documented behavior of the external
library, mirrored by the handler's `try/except` guard). -/
def processIter (raw : List (Option ProcInfo)) : List ProcInfo :=
  raw.filterMap id

/-! ### Responses, events, server state -/

/-- A handler result: plain text, or a structured payload that `json.dumps`
serializes on the wire. -/
inductive Resp where
  | text (s : String) : Resp
  | json (j : Json) : Resp

/-- Observable socket events of one loop iteration of `handle_client`. -/
inductive Ev where
  | sendOk (r : Resp) : Ev
  | sendFail : Ev
  | closeClient : Ev
  | closeServer : Ev

/-- Server-side mutable state: the allow-list and whether the connection
socket and the listening socket are open. -/
structure ServerState where
  allowedDirs : List String
  clientOpen : Bool
  sockOpen : Bool

/-- The allow-list assigned in `__init__`. -/
def initAllowedDirs : List String := ["./shared", "./downloads"]

/-! ### Handlers (methods of `RemoteServer`) -/

/-- Model of `get_system_info`. -/
def getSystemInfo (p : Provider) : Resp :=
  .text ("\nSystem Information:\nOS: " ++ p.osSystem ++ " " ++ p.osVersion ++
    "\nMachine: " ++ p.machine ++ "\nProcessor: " ++ p.processor ++ "\n")

/-- Model of `get_time`. -/
def getTime (p : Provider) : Resp :=
  .text ("Server time: " ++ p.timeText)

/-- Model of `echo_message`. -/
def echoMessage (message : String) : Resp :=
  .text ("Echo: " ++ message)

/-- Model of `exit_connection`: `cleanup()` closes the client socket and the
listening socket, then the acknowledgment string is returned. -/
def exitConnection (st : ServerState) : Resp × ServerState × List Ev :=
  (.text "Server shutting down...", ⟨st.allowedDirs, false, false⟩,
    [.closeClient, .closeServer])

/-- Display-string rendering of a numeric field interpolated directly into
an f-string (psutil percent values carry one decimal place). -/
def pyNumRepr (q : ℚ) : String := fmtFixed 1 q

/-- Gibibyte display string, `f"{x / (1024**3):.2f} GB"`. -/
def gbText (x : ℚ) : String := fmtFixed 2 (x / 1024 ^ 3) ++ " GB"

/-- Mebibyte display string, `f"{x / (1024**2):.2f} MB"`. -/
def mbText (x : ℚ) : String := fmtFixed 2 (x / 1024 ^ 2) ++ " MB"

/-- An optional integer count as JSON (`None` becomes `null`). -/
def optIntJson : Option ℤ → Json
  | some n => .num (n : ℚ)
  | none => .null

/-- Structured payload built by `get_cpu_info`. -/
def cpuInfoJson (c : CpuRaw) : Json :=
  .obj [("cpu_percent", .arr (c.percpu.map Json.num)),
        ("cpu_freq",
          match c.freq with
          | some kv => .obj (kv.map fun e => (e.1, Json.num e.2))
          | none => .obj []),
        ("cpu_count", optIntJson c.countPhysical),
        ("cpu_count_logical", optIntJson c.countLogical)]

/-- Structured payload built by `get_memory_info`. -/
def memInfoJson (m : MemRaw) : Json :=
  .obj [("total", .str (gbText m.total)),
        ("available", .str (gbText m.available)),
        ("percent_used", .str (pyNumRepr m.percent ++ "%")),
        ("swap_total", .str (gbText m.swapTotal)),
        ("swap_used", .str (gbText m.swapUsed))]

/-- Structured payload built by `get_network_stats`. -/
def netStatsJson (n : NetRaw) : Json :=
  .obj [("bytes_sent", .str (mbText n.bytesSent)),
        ("bytes_recv", .str (mbText n.bytesRecv)),
        ("packets_sent", .num (n.packetsSent : ℚ)),
        ("packets_recv", .num (n.packetsRecv : ℚ))]

/-- Sort key of `get_running_processes`: `x.info['memory_percent'] or 0`. -/
def memKey (p : ProcInfo) : ℚ := p.memPct.getD 0

/-- The comparison under Python `sorted(..., key=..., reverse=True)`:
`a` may stay before `b` iff the key of `b` does not exceed the key of `a`. -/
def procGE (a b : ProcInfo) : Prop := memKey b ≤ memKey a

instance : DecidableRel procGE := fun a b =>
  inferInstanceAs (Decidable (memKey b ≤ memKey a))

instance : IsTotal ProcInfo procGE := ⟨fun a b => le_total (memKey b) (memKey a)⟩

instance : IsTrans ProcInfo procGE :=
  ⟨fun _ _ _ h h2 => le_trans h2 h⟩

/-- The selection of `get_running_processes`: Python `sorted` is a stable
sort, modelled by insertion sort with `procGE`; then the first 10. -/
def topProcs (procs : List ProcInfo) : List ProcInfo :=
  (List.insertionSort procGE procs).take 10

/-- One entry of the `processes` payload, the `proc.info` dict with keys
`pid`, `name`, `memory_percent` in attrs order. -/
def procEntryJson (p : ProcInfo) : Json :=
  .obj [("pid", .num (p.pid : ℚ)),
        ("name", .str p.name),
        ("memory_percent",
          match p.memPct with
          | some q => .num q
          | none => .null)]

/-- Structured payload built by `get_running_processes`. -/
def runningProcessesJson (raw : List (Option ProcInfo)) : Json :=
  .arr ((topProcs (processIter raw)).map procEntryJson)

/-- Structured payload built by `get_disk_space`: mount points whose usage
query raises are skipped. -/
def diskSpaceJson (parts : List (String × Except String DiskRaw)) : Json :=
  .obj (parts.filterMap fun pr =>
    match pr.2 with
    | .ok u => some (pr.1,
        Json.obj [("total", .str (gbText u.total)),
                  ("used", .str (gbText u.used)),
                  ("free", .str (gbText u.free)),
                  ("percent", .str (pyNumRepr u.percent ++ "%"))])
    | .error _ => none)

/-- Model of `list_directory`: canonicalize the request, accept when the
canonical path has some `os.path.abspath(allowed)` as a string prefix, then
list; `os.listdir` failures degrade to an error text inside the handler. -/
def listDirectory (p : Provider) (st : ServerState) (path : String) : Resp :=
  let requested := pyAbspath p.cwd (pyJoinDot (pyStrip path))
  if st.allowedDirs.any (fun a => pyStartsWith requested (pyAbspath p.cwd a)) then
    match p.listdirFs requested with
    | .ok items =>
        .json (.obj [("path", .str requested),
                     ("contents", .arr (items.map Json.str))])
    | .error e => .text ("Error listing directory: " ++ e)
  else
    .text "Access denied. Path not in allowed directories."

/-! ### Dispatch and the session step -/

/-- The fixed response to an unregistered keyword. -/
def invalidMsg : String :=
  "Invalid command. Use \x27help\x27 to see available commands."

/-- The keyword set of the `commands` dictionary in `process_command`. -/
def registeredKeywords : List String :=
  ["sysinfo", "time", "echo", "exit", "cpu", "memory", "processes",
   "netstat", "listdir", "diskspace"]

/-- Dispatch on the parsed keyword, mirroring the `commands` dictionary
lookup; the first component is the handler outcome (`.error` models a raised
exception escaping the handler), the rest the updated state and socket
events. -/
def runHandler (p : Provider) (st : ServerState) (cmd args : String) :
    Except String Resp × ServerState × List Ev :=
  if cmd = "sysinfo" then (.ok (getSystemInfo p), st, [])
  else if cmd = "time" then (.ok (getTime p), st, [])
  else if cmd = "echo" then (.ok (echoMessage args), st, [])
  else if cmd = "exit" then
    let r := exitConnection st
    (.ok r.1, r.2.1, r.2.2)
  else if cmd = "cpu" then
    match p.cpu with
    | .ok c => (.ok (.json (cpuInfoJson c)), st, [])
    | .error e => (.error e, st, [])
  else if cmd = "memory" then
    match p.mem with
    | .ok m => (.ok (.json (memInfoJson m)), st, [])
    | .error e => (.error e, st, [])
  else if cmd = "processes" then (.ok (.json (runningProcessesJson p.procsRaw)), st, [])
  else if cmd = "netstat" then
    match p.netio with
    | .ok n => (.ok (.json (netStatsJson n)), st, [])
    | .error e => (.error e, st, [])
  else if cmd = "listdir" then (.ok (listDirectory p st args), st, [])
  else if cmd = "diskspace" then (.ok (.json (diskSpaceJson p.partitions)), st, [])
  else (.ok (.text invalidMsg), st, [])

/-- Model of `process_command`: strip and lowercase the received line, split
at the first space, dispatch. -/
def processCommand (p : Provider) (st : ServerState) (line : String) :
    Except String Resp × ServerState × List Ev :=
  let command := pyLowerL (pyStripL line.toList)
  let parts := pySplit1L command
  runHandler p st (String.mk parts.1) (String.mk (parts.2.getD []))

/-- Whether the session loop continues after one iteration. -/
inductive Outcome where
  | cont : Outcome
  | closed : Outcome

/-- Result of one loop iteration of `handle_client`. -/
structure StepOut where
  outcome : Outcome
  state : ServerState
  trace : List Ev

/-- One iteration of the `handle_client` loop on a non-empty received chunk:
dispatch, then `self.client.send(...)`.  A send on a closed socket raises;
any exception in the iteration is caught and breaks the loop. -/
def handleStep (p : Provider) (st : ServerState) (line : String) : StepOut :=
  match processCommand p st line with
  | (.error _, st2, evs) => ⟨.closed, st2, evs⟩
  | (.ok r, st2, evs) =>
    if st2.clientOpen then ⟨.cont, st2, evs ++ [.sendOk r]⟩
    else ⟨.closed, st2, evs ++ [.sendFail]⟩

/-- Follows the words of the spec (§4.2), for comparison with the access
test of `list_directory`: accept only if the canonical result is equal to,
or a descendant of, at least one allow-list entry (also canonicalized). -/
def specCanonAllows (cwd allowed : List String) (path : String) : Bool :=
  let canon := pyAbspath cwd (pyJoinDot (pyStrip path))
  allowed.any fun a =>
    let ca := pyAbspath cwd a
    canon == ca || chStarts (ca ++ "/").toList canon.toList

/-- The access test actually performed by `list_directory`, exposed on its
own for statements about it. -/
def listDirAccessCheck (cwd allowed : List String) (path : String) : Bool :=
  let requested := pyAbspath cwd (pyJoinDot (pyStrip path))
  allowed.any fun a => pyStartsWith requested (pyAbspath cwd a)

/-! ### Client renderer (`format_response` in `client.py`)

The decode attempt `json.loads(response)` is the external JSON library:
its outcome is passed in as `decoded` (`none` models `JSONDecodeError`).
Rendering that raises an uncaught exception (only `JSONDecodeError` is
caught) is an `Except.error`. -/

/-- What one `print` call emits: a text line, a `tabulate` grid, or a
pretty-printed `json.dumps` of a payload. -/
inductive Rendered where
  | line (s : String) : Rendered
  | table (headers : List String) (rows : List (List String)) : Rendered
  | dump (j : Json) : Rendered

/-- Python `str()` of a decoded JSON value, used for f-string interpolation
and table cells (container renderings abbreviated; unused by any claim). -/
def pyStr : Json → String
  | .null => "None"
  | .bool true => "True"
  | .bool false => "False"
  | .num q => if q.den = 1 then toString q.num else pyNumRepr q
  | .str s => s
  | .arr _ => "[...]"
  | .obj _ => "\x7b...\x7d"

/-- Dict lookup on a decoded JSON object (`json.loads` keeps the last
binding of a duplicated key). -/
def pyDictGet (kvs : List (String × Json)) (k : String) : Option Json :=
  (kvs.reverse.find? fun e => e.1 == k).map Prod.snd

/-- Python subscript `d[k]`: raises `KeyError` when the key is absent. -/
def pyDictGetE (kvs : List (String × Json)) (k : String) : Except String Json :=
  match pyDictGet kvs k with
  | some v => .ok v
  | none => .error "KeyError"

/-- The cell `f"{p.get('memory_percent', 0):.1f}%"`: formatting a
non-numeric value with `:.1f` raises. -/
def fmtPctCell : Json → Except String String
  | .num q => .ok (fmtFixed 1 q ++ "%")
  | .bool b => .ok (fmtFixed 1 (if b then 1 else 0) ++ "%")
  | _ => .error "TypeError"

/-- One row of the `processes` table: `[p['pid'], p['name'],
f"{p.get('memory_percent', 0):.1f}%"]`; subscripting a non-dict raises. -/
def processesRow (p : Json) : Except String (List String) :=
  match p with
  | .obj kvs => do
      let pid ← pyDictGetE kvs "pid"
      let name ← pyDictGetE kvs "name"
      let cell ← fmtPctCell ((pyDictGet kvs "memory_percent").getD (.num 0))
      pure [pyStr pid, pyStr name, cell]
  | _ => .error "TypeError"

/-- The `processes` branch: iterate the decoded payload (non-sequences are
not iterable as rows) and tabulate. -/
def processesRender (data : Json) : Except String Rendered :=
  match data with
  | .arr ps => do
      let rows ← ps.mapM processesRow
      pure (.table ["PID", "Name", "Memory %"] rows)
  | _ => .error "TypeError"

/-- The `listdir` branch: header from `data['path']`, then one indented
line per element of `data['contents']` (iterating a string yields its
characters, iterating a dict its keys; other scalars are not iterable). -/
def listdirRender (data : Json) : Except String (List Rendered) :=
  match data with
  | .obj kvs => do
      let pathv ← pyDictGetE kvs "path"
      let contents ← pyDictGetE kvs "contents"
      let ls ←
        match contents with
        | .arr xs => Except.ok (xs.map fun it => Rendered.line ("  " ++ pyStr it))
        | .str s => Except.ok (s.toList.map fun c => Rendered.line ("  " ++ String.mk [c]))
        | .obj kvs2 => Except.ok (kvs2.map fun e => Rendered.line ("  " ++ e.1))
        | _ => Except.error "TypeError"
      pure (.line ("\nContents of " ++ pyStr pathv ++ ":") :: ls)
  | _ => .error "TypeError"

/-- Model of `format_response`: print the fixed header, then dispatch on
the command the client sent; a failed decode (`decoded = none`) falls back
to the raw text. -/
def formatResponse (command response : String) (decoded : Option Json) :
    Except String (List Rendered) :=
  match decoded with
  | none => .ok [.line "\nServer response:", .line response]
  | some data =>
    let body :=
      if pyStartsWith command "processes" then
        (processesRender data).map fun t => [t]
      else if pyStartsWith command "cpu" || pyStartsWith command "memory" ||
          pyStartsWith command "netstat" || pyStartsWith command "diskspace" then
        .ok [.dump data]
      else if pyStartsWith command "listdir" then
        listdirRender data
      else
        .ok [.line response]
    body.map fun ls => .line "\nServer response:" :: ls

/-! ### Concrete states used by counterexamples and witnesses -/

/-- A server state right after `accept`: both sockets open, the allow-list
from `__init__`. -/
def openState : ServerState := ⟨initAllowedDirs, true, true⟩

/-- A benign provider state (all introspection calls succeed). -/
def baseProvider : Provider :=
  ⟨["home", "user"], .ok ⟨[], none, none, none⟩, .ok ⟨0, 0, 0, 0, 0⟩,
   .ok ⟨0, 0, 0, 0⟩, [], [], fun _ => .ok [], "Linux", "6.1", "x86_64",
   "cpu0", "2026-10-12 00:00:00"⟩

/-- Provider on a host where the sibling directory `/home/user/sharedfoo`
of the allowed root `/home/user/shared` exists and holds one file. -/
def c1Provider : Provider :=
  ⟨["home", "user"], .ok ⟨[], none, none, none⟩, .ok ⟨0, 0, 0, 0, 0⟩,
   .ok ⟨0, 0, 0, 0⟩, [], [], fun _ => .ok ["secret.txt"], "Linux", "6.1",
   "x86_64", "cpu0", "2026-10-12 00:00:00"⟩

/-- Provider whose CPU introspection call raises (permission denied). -/
def c3Provider : Provider :=
  ⟨["home", "user"], .error "AccessDenied", .ok ⟨0, 0, 0, 0, 0⟩,
   .ok ⟨0, 0, 0, 0⟩, [], [], fun _ => .ok [], "Linux", "6.1", "x86_64",
   "cpu0", "2026-10-12 00:00:00"⟩

/-! ### General lemmas about the dispatch and the session step -/

theorem processCommand_eq (p : Provider) (st : ServerState) (line : String) :
    processCommand p st line = runHandler p st (normKeyword line) (normArg line) :=
  rfl

theorem runHandler_unregistered (p : Provider) (st : ServerState) {cmd : String}
    (args : String) (h : cmd ∉ registeredKeywords) :
    runHandler p st cmd args = (.ok (.text invalidMsg), st, []) := by
  have h1 : cmd ≠ "sysinfo" := fun hc => h (by rw [hc]; decide)
  have h2 : cmd ≠ "time" := fun hc => h (by rw [hc]; decide)
  have h3 : cmd ≠ "echo" := fun hc => h (by rw [hc]; decide)
  have h4 : cmd ≠ "exit" := fun hc => h (by rw [hc]; decide)
  have h5 : cmd ≠ "cpu" := fun hc => h (by rw [hc]; decide)
  have h6 : cmd ≠ "memory" := fun hc => h (by rw [hc]; decide)
  have h7 : cmd ≠ "processes" := fun hc => h (by rw [hc]; decide)
  have h8 : cmd ≠ "netstat" := fun hc => h (by rw [hc]; decide)
  have h9 : cmd ≠ "listdir" := fun hc => h (by rw [hc]; decide)
  have h10 : cmd ≠ "diskspace" := fun hc => h (by rw [hc]; decide)
  simp only [runHandler, if_neg h1, if_neg h2, if_neg h3, if_neg h4, if_neg h5,
    if_neg h6, if_neg h7, if_neg h8, if_neg h9, if_neg h10]

theorem runHandler_allowedDirs (p : Provider) (st : ServerState) (cmd args : String) :
    ((runHandler p st cmd args).2.1).allowedDirs = st.allowedDirs := by
  unfold runHandler exitConnection
  repeat' split
  all_goals rfl

theorem handleStep_allowedDirs (p : Provider) (st : ServerState) (line : String) :
    ((handleStep p st line).state).allowedDirs = st.allowedDirs := by
  have hal : ((processCommand p st line).2.1).allowedDirs = st.allowedDirs := by
    rw [processCommand_eq]
    exact runHandler_allowedDirs p st _ _
  unfold handleStep
  rcases hpc : processCommand p st line with ⟨res, st2, evs⟩
  rw [hpc] at hal
  cases res with
  | error e => exact hal
  | ok r =>
    dsimp only
    split
    · exact hal
    · exact hal

theorem handleStep_invalid (p : Provider) (st : ServerState) (line : String)
    (hopen : st.clientOpen = true) (hreg : normKeyword line ∉ registeredKeywords) :
    handleStep p st line = ⟨.cont, st, [.sendOk (.text invalidMsg)]⟩ := by
  have h1 : processCommand p st line = (.ok (.text invalidMsg), st, []) := by
    rw [processCommand_eq, runHandler_unregistered p st (normArg line) hreg]
  unfold handleStep
  rw [h1]
  simp [hopen]

/-! ### Claim theorems -/

/-- C1.  The claim says `list_directory` denies every path whose canonical
form is neither equal to nor a descendant of an allow-list entry.  The code
instead does a raw string-prefix test on the canonicalized paths: the
sibling directory `sharedfoo` of the allowed root `shared` canonicalizes to
`/home/user/sharedfoo`, which has `/home/user/shared` as a string prefix,
so the code lists it although the spec test (`specCanonAllows`) rejects it. -/
theorem c1_listdir_sibling_escape :
    listDirAccessCheck ["home", "user"] initAllowedDirs "sharedfoo" = true ∧
    specCanonAllows ["home", "user"] initAllowedDirs "sharedfoo" = false ∧
    listDirectory c1Provider openState "sharedfoo" =
      .json (.obj [("path", .str "/home/user/sharedfoo"),
                   ("contents", .arr [.str "secret.txt"])]) :=
  ⟨rfl, rfl, rfl⟩

/-- C2.  The claim says the `exit` acknowledgment is flushed to the peer
strictly before the connection socket is closed.  In the code
`exit_connection` runs `cleanup()` (closing both sockets) before returning
the acknowledgment string, so the subsequent `self.client.send` in
`handle_client` operates on a closed socket and raises: the event trace of
the `exit` iteration is close, close, then a failed send, and no successful
send of the acknowledgment ever occurs. -/
theorem c2_exit_close_precedes_send (p : Provider) (st : ServerState) :
    handleStep p st "exit" =
      ⟨.closed, ⟨st.allowedDirs, false, false⟩,
        [.closeClient, .closeServer, .sendFail]⟩ :=
  rfl

/-- C3 counterexample.  The claim says an introspection exception is caught
at the handler boundary, an apologetic response is sent, and the session
continues.  With a CPU provider that raises, the step for `cpu` sends
nothing (empty trace) and terminates the session. -/
theorem c3_counterexample :
    (handleStep c3Provider openState "cpu").outcome = .closed ∧
    (handleStep c3Provider openState "cpu").trace = [] :=
  ⟨rfl, rfl⟩

/-- C3 amended.  An exception thrown by the CPU introspection call
propagates out of the handler; the `handle_client` loop catches it, sends
no response, and closes the session (the process survives).  `listdir`, by
contrast, contains its failures: the command always yields a response and
the session continues, and an `os.listdir` failure inside an allowed path
degrades to an error text. -/
theorem c3_amended (p : Provider) (st : ServerState) :
    (∀ e, p.cpu = .error e → handleStep p st "cpu" = ⟨.closed, st, []⟩) ∧
    (∀ line, st.clientOpen = true → normKeyword line = "listdir" →
      handleStep p st line =
        ⟨.cont, st, [.sendOk (listDirectory p st (normArg line))]⟩) ∧
    (∀ path e, listDirAccessCheck p.cwd st.allowedDirs path = true →
      p.listdirFs (pyAbspath p.cwd (pyJoinDot (pyStrip path))) = .error e →
      listDirectory p st path = .text ("Error listing directory: " ++ e)) := by
  refine ⟨?_, ?_, ?_⟩
  · intro e hcpu
    have h1 : processCommand p st "cpu"
        = (match p.cpu with
           | .ok c => (Except.ok (Resp.json (cpuInfoJson c)), st, ([] : List Ev))
           | .error err => (Except.error err, st, [])) := rfl
    have h2 : processCommand p st "cpu" = (.error e, st, []) := by
      rw [h1, hcpu]
    unfold handleStep
    rw [h2]
  · intro line hopen hk
    have h1 : processCommand p st line
        = (.ok (listDirectory p st (normArg line)), st, []) := by
      rw [processCommand_eq, hk]
      rfl
    unfold handleStep
    rw [h1]
    simp [hopen]
  · intro path e hacc hfs
    have hacc2 : (st.allowedDirs.any fun a =>
        pyStartsWith (pyAbspath p.cwd (pyJoinDot (pyStrip path)))
          (pyAbspath p.cwd a)) = true := hacc
    unfold listDirectory
    dsimp only
    rw [if_pos hacc2, hfs]

/-- C3 witness, at a CPU provider that raises and at the allowed path
`shared` with a failing `os.listdir`. -/
theorem c3_amended_witness :
    handleStep c3Provider openState "cpu" = ⟨.closed, openState, []⟩ ∧
    handleStep baseProvider openState "listdir shared" =
      ⟨.cont, openState,
        [.sendOk (listDirectory baseProvider openState "shared")]⟩ :=
  ⟨(c3_amended c3Provider openState).1 "AccessDenied" rfl,
   (c3_amended baseProvider openState).2.1 "listdir shared" rfl rfl⟩

/-- C4 counterexample.  The claim says `echo` reproduces the raw remainder
of the line verbatim, case unchanged.  `process_command` lowercases the
whole received line before splitting, so `echo Hello` yields
`Echo: hello`, not `Echo: Hello`. -/
theorem c4_counterexample :
    processCommand baseProvider openState "echo Hello" =
      (.ok (.text "Echo: hello"), openState, []) ∧
    ("Echo: hello" : String) ≠ "Echo: Hello" :=
  ⟨rfl, by decide⟩

/-- C4 amended.  For every received line whose normalized keyword is
`echo`, the response is exactly `"Echo: "` followed by the argument, where
the argument is the remainder of the stripped and lowercased line after
the first space (so case-folded and with outer whitespace removed, empty
when there is none), rather than the raw remainder. -/
theorem c4_amended (p : Provider) (st : ServerState) (line : String)
    (hk : normKeyword line = "echo") :
    processCommand p st line =
      (.ok (.text ("Echo: " ++ normArg line)), st, []) := by
  rw [processCommand_eq, hk]
  rfl

/-- C4 witness: a mixed-case argument is echoed lowercased. -/
theorem c4_amended_witness :
    processCommand baseProvider openState "echo Hi THERE" =
      (.ok (.text "Echo: hi there"), openState, []) :=
  c4_amended baseProvider openState "echo Hi THERE" rfl

/-- C7.  A received line whose normalized keyword is not in the registered
set yields the fixed invalid-command response, raises nothing (the dispatch
is total), and leaves the session open with unchanged state. -/
theorem c7_unknown_keyword (p : Provider) (st : ServerState) (line : String)
    (hopen : st.clientOpen = true)
    (hreg : normKeyword line ∉ registeredKeywords) :
    handleStep p st line = ⟨.cont, st, [.sendOk (.text invalidMsg)]⟩ :=
  handleStep_invalid p st line hopen hreg

/-- C7 witness at the unknown keyword `frobnicate`. -/
theorem c7_unknown_keyword_witness :
    handleStep baseProvider openState "frobnicate" =
      ⟨.cont, openState, [.sendOk (.text invalidMsg)]⟩ :=
  c7_unknown_keyword baseProvider openState "frobnicate" rfl (by decide)

/-- C9 counterexample.  The claim describes the allow-list as canonicalized
absolute directory paths; the stored entries are the relative strings
`./shared` and `./downloads` (canonicalized only at each use). -/
theorem c9_counterexample : ¬ ∀ d ∈ initAllowedDirs, pyIsAbs d = true := by
  decide

/-- C9 amended.  The allow-list is fixed at server start to the relative
entries `./shared` and `./downloads` (each canonicalized with
`os.path.abspath` at every use) and is immutable for the process lifetime:
no session step changes it. -/
theorem c9_amended :
    initAllowedDirs = ["./shared", "./downloads"] ∧
    ∀ (p : Provider) (st : ServerState) (line : String),
      ((handleStep p st line).state).allowedDirs = st.allowedDirs :=
  ⟨rfl, fun p st line => handleStep_allowedDirs p st line⟩

/-- C10.  A non-empty, all-whitespace line normalizes to the empty keyword,
which is not registered, so the server replies with the invalid-command
message and the session continues. -/
theorem c10_whitespace_line (p : Provider) (st : ServerState) (line : String)
    (hopen : st.clientOpen = true) (hne : line ≠ "")
    (hws : ∀ c ∈ line.toList, pySpace c = true) :
    normKeyword line = "" ∧
    handleStep p st line = ⟨.cont, st, [.sendOk (.text invalidMsg)]⟩ := by
  have hstrip : pyStripL line.toList = [] := by
    unfold pyStripL
    rw [List.dropWhile_eq_nil_iff.mpr hws]
    rfl
  have hk : normKeyword line = "" := by
    unfold normKeyword
    rw [hstrip]
    rfl
  refine ⟨hk, handleStep_invalid p st line hopen ?_⟩
  rw [hk]
  decide

/-- C10 witness at a line of three spaces. -/
theorem c10_whitespace_line_witness :
    normKeyword "   " = "" ∧
    handleStep baseProvider openState "   " =
      ⟨.cont, openState, [.sendOk (.text invalidMsg)]⟩ :=
  c10_whitespace_line baseProvider openState "   " rfl (by decide) (by decide)

/-! ### Stability of the process sort -/

theorem filter_orderedInsert (v : ℚ) (a : ProcInfo) (l : List ProcInfo) :
    (List.orderedInsert procGE a l).filter (fun e => memKey e == v)
      = if memKey a = v then a :: l.filter (fun e => memKey e == v)
        else l.filter (fun e => memKey e == v) := by
  induction l with
  | nil =>
    by_cases ha : memKey a = v <;>
      simp [List.orderedInsert, List.filter_cons, ha, beq_iff_eq]
  | cons b l ih =>
    unfold List.orderedInsert
    by_cases hab : procGE a b
    · rw [if_pos hab]
      by_cases ha : memKey a = v <;> simp [List.filter_cons, ha, beq_iff_eq]
    · rw [if_neg hab]
      rw [List.filter_cons, ih]
      by_cases ha : memKey a = v
      · have hb : ¬ memKey b = v := fun hbv => hab (le_of_eq (ha ▸ hbv))
        simp [ha, hb, List.filter_cons, beq_iff_eq]
      · by_cases hb : memKey b = v <;>
          simp [ha, hb, List.filter_cons, beq_iff_eq]

theorem filter_insertionSort_memKey (v : ℚ) (l : List ProcInfo) :
    (List.insertionSort procGE l).filter (fun e => memKey e == v)
      = l.filter (fun e => memKey e == v) := by
  induction l with
  | nil => rfl
  | cons a l ih =>
    rw [List.insertionSort, filter_orderedInsert, ih]
    by_cases ha : memKey a = v <;> simp [ha, List.filter_cons, beq_iff_eq]

/-- C5.  The `processes` payload has at most 10 entries; they are sorted
descending by the memory key (`memory_percent`, `None` counting as 0); they
are the 10 highest-key processes (every process left out has a key at most
every returned key); ties keep the provider iteration order (for each key
value, the returned entries with that key are an initial run, in order, of
the scanned entries with that key); every entry is a map with exactly the
keys `pid`, `name`, `memory_percent`; and a process that vanishes mid-scan
is silently skipped, leaving the result unchanged. -/
theorem c5_processes_top10 (raw : List (Option ProcInfo)) :
    (topProcs (processIter raw)).length ≤ 10 ∧
    List.Pairwise procGE (topProcs (processIter raw)) ∧
    (∃ dropped, (processIter raw).Perm (topProcs (processIter raw) ++ dropped) ∧
      ∀ x ∈ topProcs (processIter raw), ∀ y ∈ dropped, memKey y ≤ memKey x) ∧
    (∀ v : ℚ, ((topProcs (processIter raw)).filter fun e => memKey e == v) <+:
      ((processIter raw).filter fun e => memKey e == v)) ∧
    (∀ e ∈ topProcs (processIter raw),
      (procEntryJson e).keys = ["pid", "name", "memory_percent"]) ∧
    (∀ raw₁ raw₂ : List (Option ProcInfo),
      runningProcessesJson (raw₁ ++ none :: raw₂) =
        runningProcessesJson (raw₁ ++ raw₂)) := by
  refine ⟨?_, ?_, ?_, ?_, ?_, ?_⟩
  · exact List.length_take_le 10 _
  · exact List.Pairwise.sublist (List.take_sublist 10 _)
      (List.sorted_insertionSort procGE (processIter raw))
  · refine ⟨(List.insertionSort procGE (processIter raw)).drop 10, ?_, ?_⟩
    · have hp : (processIter raw).Perm (List.insertionSort procGE (processIter raw)) :=
        (List.perm_insertionSort procGE (processIter raw)).symm
      rwa [← List.take_append_drop 10
        (List.insertionSort procGE (processIter raw))] at hp
    · intro x hx y hy
      exact (List.sorted_insertionSort procGE (processIter raw)).rel_of_mem_take_of_mem_drop
        hx hy
  · intro v
    refine ⟨((List.insertionSort procGE (processIter raw)).drop 10).filter
      (fun e => memKey e == v), ?_⟩
    unfold topProcs
    rw [← List.filter_append, List.take_append_drop, filter_insertionSort_memKey]
  · intro e _
    rfl
  · intro raw₁ raw₂
    unfold runningProcessesJson processIter
    rw [List.filterMap_append, List.filterMap_append]
    simp [List.filterMap_cons]

/-- C5 witness at a three-slot scan with one vanished process. -/
theorem c5_processes_top10_witness :
    (topProcs (processIter [some ⟨1, "a", some 5⟩, none, some ⟨2, "b", some 7⟩])).length ≤ 10 ∧
    List.Pairwise procGE
      (topProcs (processIter [some ⟨1, "a", some 5⟩, none, some ⟨2, "b", some 7⟩])) ∧
    (∃ dropped,
      (processIter [some ⟨1, "a", some 5⟩, none, some ⟨2, "b", some 7⟩]).Perm
        (topProcs (processIter [some ⟨1, "a", some 5⟩, none, some ⟨2, "b", some 7⟩]) ++
          dropped) ∧
      ∀ x ∈ topProcs (processIter [some ⟨1, "a", some 5⟩, none, some ⟨2, "b", some 7⟩]),
        ∀ y ∈ dropped, memKey y ≤ memKey x) ∧
    (∀ v : ℚ,
      ((topProcs (processIter [some ⟨1, "a", some 5⟩, none, some ⟨2, "b", some 7⟩])).filter
          fun e => memKey e == v) <+:
        ((processIter [some ⟨1, "a", some 5⟩, none, some ⟨2, "b", some 7⟩]).filter
          fun e => memKey e == v)) ∧
    (∀ e ∈ topProcs (processIter [some ⟨1, "a", some 5⟩, none, some ⟨2, "b", some 7⟩]),
      (procEntryJson e).keys = ["pid", "name", "memory_percent"]) ∧
    (∀ raw₁ raw₂ : List (Option ProcInfo),
      runningProcessesJson (raw₁ ++ none :: raw₂) =
        runningProcessesJson (raw₁ ++ raw₂)) :=
  c5_processes_top10 [some ⟨1, "a", some 5⟩, none, some ⟨2, "b", some 7⟩]

/-- Mount points that survive the `disk_usage` scan. -/
theorem diskSpaceJson_keys (parts : List (String × Except String DiskRaw)) :
    (diskSpaceJson parts).keys = parts.filterMap (fun pr =>
      match pr.2 with
      | .ok _ => some pr.1
      | .error _ => none) := by
  induction parts with
  | nil => rfl
  | cons hd tl ih =>
    show ((hd :: tl).filterMap _).map Prod.fst = _
    rw [List.filterMap_cons, List.filterMap_cons]
    cases h2 : hd.2 with
    | ok u => simp only [h2, List.map_cons]; exact congrArg _ ih
    | error e => simp only [h2]; exact ih

/-- C6 counterexample.  The claim requires the key `cpu_count_physical` in
the `cpu` payload; the code emits `cpu_count` for the physical count. -/
theorem c6_counterexample :
    (cpuInfoJson ⟨[], none, none, none⟩).keys ≠
      ["cpu_percent", "cpu_freq", "cpu_count_physical", "cpu_count_logical"] := by
  decide

/-- C6 amended.  For every provider state the structured payloads carry
exactly these keys, in order: `cpu` has `cpu_percent`, `cpu_freq`,
`cpu_count` (the physical count, under that name), `cpu_count_logical`;
`memory` has `total`, `available`, `percent_used`, `swap_total`,
`swap_used`; `netstat` has `bytes_sent`, `bytes_recv`, `packets_sent`,
`packets_recv`; `diskspace` maps the surviving mount points to objects with
exactly `total`, `used`, `free`, `percent`.  (The JSON library round-trip
is the identity on these payloads.) -/
theorem c6_amended :
    (∀ c : CpuRaw, (cpuInfoJson c).keys =
      ["cpu_percent", "cpu_freq", "cpu_count", "cpu_count_logical"]) ∧
    (∀ m : MemRaw, (memInfoJson m).keys =
      ["total", "available", "percent_used", "swap_total", "swap_used"]) ∧
    (∀ n : NetRaw, (netStatsJson n).keys =
      ["bytes_sent", "bytes_recv", "packets_sent", "packets_recv"]) ∧
    (∀ parts : List (String × Except String DiskRaw),
      (diskSpaceJson parts).keys = parts.filterMap (fun pr =>
        match pr.2 with
        | .ok _ => some pr.1
        | .error _ => none) ∧
      ∀ kv ∈ (diskSpaceJson parts).objEntries,
        kv.2.keys = ["total", "used", "free", "percent"]) := by
  refine ⟨fun c => rfl, fun m => rfl, fun n => rfl,
    fun parts => ⟨diskSpaceJson_keys parts, ?_⟩⟩
  intro kv hkv
  obtain ⟨pr, _, heq⟩ := List.mem_filterMap.mp hkv
  cases h2 : pr.2 with
  | ok u =>
    rw [h2] at heq
    obtain rfl := Option.some.inj heq
    rfl
  | error e =>
    rw [h2] at heq
    exact absurd heq (by simp)

/-- C6 witness at concrete provider values (one failing mount point). -/
theorem c6_amended_witness :
    (cpuInfoJson ⟨[2], some [("current", 1)], some 4, some 8⟩).keys =
      ["cpu_percent", "cpu_freq", "cpu_count", "cpu_count_logical"] ∧
    (memInfoJson ⟨1, 2, 3, 4, 5⟩).keys =
      ["total", "available", "percent_used", "swap_total", "swap_used"] ∧
    (netStatsJson ⟨1, 2, 3, 4⟩).keys =
      ["bytes_sent", "bytes_recv", "packets_sent", "packets_recv"] ∧
    (diskSpaceJson [("/", .ok ⟨1, 2, 3, 4⟩), ("/cdrom", .error "nope")]).keys =
      ["/"] :=
  ⟨c6_amended.1 _, c6_amended.2.1 _, c6_amended.2.2.1 _,
   ((c6_amended.2.2.2 _).1).trans (by decide)⟩

/-- C8 counterexample.  The claim says rendering never crashes the client.
Only `JSONDecodeError` is caught: for the sent command `processes` and the
response string that decodes to a singleton list holding an empty object
(the string bracket-open brace-open brace-close bracket-close), the row
construction `p['pid']` raises `KeyError` and the client crashes. -/
theorem c8_counterexample :
    formatResponse "processes" "[\x7b\x7d]" (some (.arr [.obj []])) =
      .error "KeyError" :=
  rfl

/-- C8 amended.  Dispatch is on the command the client sent.  A failed
decode always falls back to the raw text and never raises.  A decoded
`processes` response renders the PID/Name/Memory % table when every entry
is an object carrying `pid` and `name` and a numeric (or absent)
`memory_percent`, the percent formatted to 1 decimal with a trailing `%`;
a decoded `listdir` response with a `path` string and a `contents` list
renders the header line and one two-space-indented line per entry.  A
decoded payload not of the shape the branch expects raises (`KeyError` or
`TypeError`) and crashes the client. -/
theorem c8_amended :
    (∀ cmd resp : String, formatResponse cmd resp none =
      .ok [.line "\nServer response:", .line resp]) ∧
    (∀ (rest resp : String) (ps : List Json) (rows : List (List String)),
      ps.mapM processesRow = .ok rows →
      formatResponse ("processes" ++ rest) resp (some (.arr ps)) =
        .ok [.line "\nServer response:",
             .table ["PID", "Name", "Memory %"] rows]) ∧
    (∀ (pid name : Json) (q : ℚ),
      processesRow (.obj [("pid", pid), ("name", name), ("memory_percent", .num q)]) =
        .ok [pyStr pid, pyStr name, fmtFixed 1 q ++ "%"]) ∧
    (∀ (rest resp s : String) (items : List Json),
      formatResponse ("listdir" ++ rest) resp
        (some (.obj [("path", .str s), ("contents", .arr items)])) =
        .ok (.line "\nServer response:" ::
          .line ("\nContents of " ++ s ++ ":") ::
          items.map fun it => .line ("  " ++ pyStr it))) := by
  refine ⟨fun cmd resp => rfl, ?_, fun pid name q => rfl,
    fun rest resp s items => rfl⟩
  intro rest resp ps rows hrows
  have hpr : processesRender (.arr ps) =
      .ok (.table ["PID", "Name", "Memory %"] rows) := by
    rw [show processesRender (.arr ps) =
      (ps.mapM processesRow >>= fun r =>
        pure (Rendered.table ["PID", "Name", "Memory %"] r)) from rfl, hrows]
    rfl
  have hf : formatResponse ("processes" ++ rest) resp (some (.arr ps)) =
      ((processesRender (.arr ps)).map fun t => [t]).map
        (fun ls => .line "\nServer response:" :: ls) := rfl
  rw [hf, hpr]
  rfl

/-- C8 witness: a well-shaped one-row `processes` response renders as a
table whose percent cell carries one decimal and a trailing percent sign. -/
theorem c8_amended_witness :
    formatResponse "processes" "resp"
      (some (.arr [.obj [("pid", .num 1), ("name", .str "a"),
        ("memory_percent", .num 5)]])) =
      .ok [.line "\nServer response:",
           .table ["PID", "Name", "Memory %"] [["1", "a", "5.0%"]]] :=
  c8_amended.2.1 "" "resp"
    [.obj [("pid", .num 1), ("name", .str "a"), ("memory_percent", .num 5)]]
    [["1", "a", "5.0%"]] rfl

end RemoteMon
